import Mathlib

/-!
Shallow embedding of the `diesel-dtrace` crate (`src/lib.rs`): a DTrace
instrumentation wrapper `DTraceConnection` around a diesel connection, plus
the transaction-manager shim `DTraceTransactionManager`.

Modelling conventions:
* `Uuid` (`uuid::Uuid`) and `UniqueId` (`usdt::UniqueId`) are identifiers that
  the probes only carry and compare, so both are modelled as `Nat`.  Fresh
  generation (`Uuid::new_v4()`, `UniqueId::new()`) is modelled by an explicit
  supply: each wrapper operation receives the fresh value it generates.
* The underlying diesel connection (an external dependency consumed through a
  narrow interface) is modelled by a record `Underlying` of state-passing
  functions over an abstract state `σ`, with abstract query-error type `ε`,
  cursor type `κ` and connection-error type `η`.  Fallible calls return
  `Except`.
* Probe emission is modelled by the list of probe events an operation fires,
  in program order.  The probe macros only observe their arguments, so the
  returned result of every operation is, as in the source, exactly the value
  the delegated call produced.
* Queries (`&str` batches, `T: QueryFragment` sources) are modelled by their
  rendered text, a `String`; the probe payload of `load` and
  `execute_returning_count` is the `debug_query` rendering of the source,
  which this embedding identifies with the query value itself.
-/

deriving instance DecidableEq for Except

namespace DieselDtrace

/-- Model of `uuid::Uuid`: a per-connection identifier, only generated and
compared, so a natural number suffices. -/
abbrev Uuid := Nat

/-- Model of `usdt::UniqueId`: the per-operation correlation id pairing a
start probe with its done probe. -/
abbrev UniqueId := Nat

/-- Model of `std::num::NonZeroU32` as it appears in diesel's
`ValidTransactionManagerStatus::transaction_depth`: a positive natural.  The
32-bit range of the std type plays no role in the nesting semantics the crate
observes, so it is not modelled. -/
abbrev NonZeroU32 := {n : Nat // 0 < n}

/-- Model of diesel's `ValidTransactionManagerStatus` (the narrow interface
the crate reads): the current transaction depth, `none` when no transaction
is open. -/
structure ValidTransactionManagerStatus where
  transaction_depth : Option NonZeroU32
  deriving DecidableEq

/-- Model of diesel's `TransactionManagerStatus`: either a valid status or the
poisoned `InError` state. -/
inductive TransactionManagerStatus
  | valid (status : ValidTransactionManagerStatus)
  | inError
  deriving DecidableEq

/-- Model of diesel's `TransactionManagerStatus::transaction_depth()`:
`Ok(depth)` on a valid status, `Err(Error::BrokenTransactionManager)` on the
`InError` status (the error payload is irrelevant here, hence `Unit`). -/
def TransactionManagerStatus.transaction_depth :
    TransactionManagerStatus → Except Unit (Option NonZeroU32)
  | .valid s => .ok s.transaction_depth
  | .inError => .error ()

/-- The six probe kinds of the `diesel_db` provider (`pub mod probes` in
`src/lib.rs`), with the exact argument schemas of the source. -/
inductive Probe
  | connection_establish_start (id : UniqueId) (conn_id : Uuid) (url : String)
  | connection_establish_done (id : UniqueId) (conn_id : Uuid) (success : Nat)
  | query_start (id : UniqueId) (conn_id : Uuid) (query : String)
  | query_done (id : UniqueId) (conn_id : Uuid)
  | transaction_start (conn_id : Uuid) (depth : Int)
  | transaction_done (conn_id : Uuid) (depth : Int) (committed : Nat)
  deriving DecidableEq

/-- The connection id carried by a probe event.  Every probe kind of the
provider carries the connection id of the connection it was fired for. -/
def Probe.conn_id : Probe → Uuid
  | .connection_establish_start _ cid _ => cid
  | .connection_establish_done _ cid _ => cid
  | .query_start _ cid _ => cid
  | .query_done _ cid => cid
  | .transaction_start cid _ => cid
  | .transaction_done cid _ _ => cid

/-- The interface of the wrapped diesel connection `C` (with
`C::TransactionManager = AnsiTransactionManager`), as consumed by the crate:
state-passing functions over an abstract connection state `σ`.  The three
transaction operations are the `AnsiTransactionManager` trait methods the
shim delegates to, and `transaction_manager_status` is the (read) access the
depth computation performs on the status those methods maintain. -/
structure Underlying (σ ε κ η : Type) where
  batch_execute : σ → String → Except ε Unit × σ
  load : σ → String → Except ε κ × σ
  execute_returning_count : σ → String → Except ε Nat × σ
  ping : σ → Except ε Unit × σ
  begin_transaction : σ → Except ε Unit × σ
  commit_transaction : σ → Except ε Unit × σ
  rollback_transaction : σ → Except ε Unit × σ
  transaction_manager_status : σ → TransactionManagerStatus
  establish : String → Except η σ

/-- `DTraceConnection<C>`: the wrapped connection together with its
per-connection `Uuid`.  The field `id` is the accessor
`DTraceConnection::id`. -/
structure DTraceConnection (σ : Type) where
  inner : σ
  id : Uuid
  deriving DecidableEq

/-- Outcome of one wrapper operation on an existing connection: the delegated
result, the connection afterwards, and the probes fired, in firing order. -/
structure CallOut (α σ : Type) where
  result : α
  conn : DTraceConnection σ
  probes : List Probe

/-- Outcome of `Connection::establish` for `DTraceConnection`: the returned
connection or error, and the probes fired, in firing order. -/
structure EstablishOut (σ η : Type) where
  result : Except η (DTraceConnection σ)
  probes : List Probe

variable {σ ε κ η : Type}

/-- The match at the heart of `DTraceTransactionManager::depth`: interpret a
transaction-manager status as the probe depth.  `Ok(Some(d))` gives `d`,
`Ok(None)` gives `0`, `Err(_)` gives `-1`.  It is a total function: depth
computation itself can never fail. -/
def depthOfStatus (status : TransactionManagerStatus) : Int :=
  match status.transaction_depth with
  | .ok (some depth) => Int.ofNat depth.val
  | .ok none => 0
  | .error _ => -1

/-- `DTraceTransactionManager::depth(conn)`: read the status of the wrapped
connection through `AnsiTransactionManager::transaction_manager_status_mut`
and interpret it. -/
def DTraceTransactionManager.depth (U : Underlying σ ε κ η)
    (conn : DTraceConnection σ) : Int :=
  depthOfStatus (U.transaction_manager_status conn.inner)

/-- `SimpleConnection::batch_execute` for `DTraceConnection`: generate a
correlation id, fire `query__start` with the raw statement text, delegate,
fire `query__done`, return the delegated result. -/
def DTraceConnection.batch_execute (U : Underlying σ ε κ η) (uid : UniqueId)
    (conn : DTraceConnection σ) (query : String) :
    CallOut (Except ε Unit) σ :=
  let id := uid
  let startProbe := Probe.query_start id conn.id query
  let out := U.batch_execute conn.inner query
  let doneProbe := Probe.query_done id conn.id
  ⟨out.1, ⟨out.2, conn.id⟩, [startProbe, doneProbe]⟩

/-- `LoadConnection::load` for `DTraceConnection`: generate a correlation id,
fire `query__start` with the rendered query text, delegate to the inner
`load`, fire `query__done`, return the delegated cursor or error. -/
def DTraceConnection.load (U : Underlying σ ε κ η) (uid : UniqueId)
    (conn : DTraceConnection σ) (source : String) :
    CallOut (Except ε κ) σ :=
  let id := uid
  let startProbe := Probe.query_start id conn.id source
  let out := U.load conn.inner source
  let doneProbe := Probe.query_done id conn.id
  ⟨out.1, ⟨out.2, conn.id⟩, [startProbe, doneProbe]⟩

/-- `Connection::execute_returning_count` for `DTraceConnection`: generate a
correlation id, fire `query__start` with the rendered statement text,
delegate, fire `query__done`, return the delegated count or error. -/
def DTraceConnection.execute_returning_count (U : Underlying σ ε κ η)
    (uid : UniqueId) (conn : DTraceConnection σ) (source : String) :
    CallOut (Except ε Nat) σ :=
  let id := uid
  let startProbe := Probe.query_start id conn.id source
  let out := U.execute_returning_count conn.inner source
  let doneProbe := Probe.query_done id conn.id
  ⟨out.1, ⟨out.2, conn.id⟩, [startProbe, doneProbe]⟩

/-- `R2D2Connection::ping` for `DTraceConnection`: pure delegation, no
probes. -/
def DTraceConnection.ping (U : Underlying σ ε κ η)
    (conn : DTraceConnection σ) : CallOut (Except ε Unit) σ :=
  let out := U.ping conn.inner
  ⟨out.1, ⟨out.2, conn.id⟩, []⟩

/-- `u8::from(conn.is_ok())` on the delegated establish outcome. -/
def successFlag (r : Except η σ) : Nat :=
  match r with
  | .ok _ => 1
  | .error _ => 0

/-- `Connection::establish` for `DTraceConnection`: generate a correlation id
`uid` and a fresh connection id `conn_id` (both supplied fresh, modelling
`UniqueId::new()` and `Uuid::new_v4()`), fire
`connection__establish__start`, delegate to `C::establish`, fire
`connection__establish__done` with the success flag regardless of outcome,
then return the wrapper tagged with `conn_id` or propagate the error. -/
def DTraceConnection.establish (U : Underlying σ ε κ η) (uid : UniqueId)
    (conn_id : Uuid) (database_url : String) : EstablishOut σ η :=
  let startProbe := Probe.connection_establish_start uid conn_id database_url
  let conn := U.establish database_url
  let doneProbe := Probe.connection_establish_done uid conn_id (successFlag conn)
  match conn with
  | .ok inner => ⟨.ok ⟨inner, conn_id⟩, [startProbe, doneProbe]⟩
  | .error e => ⟨.error e, [startProbe, doneProbe]⟩

/-- `Deref for DTraceConnection`: `&self.inner`, with the (empty) list of
probes its body fires. -/
def DTraceConnection.deref (conn : DTraceConnection σ) : σ × List Probe :=
  (conn.inner, [])

/-- `DerefMut for DTraceConnection`: `&mut self.inner`, with the (empty) list
of probes its body fires. -/
def DTraceConnection.deref_mut (conn : DTraceConnection σ) : σ × List Probe :=
  (conn.inner, [])

/-- `TransactionManager::begin_transaction` for the shim: compute the depth
of the current state, fire `transaction__start`, then delegate to
`AnsiTransactionManager::begin_transaction` and return its result. -/
def DTraceTransactionManager.begin_transaction (U : Underlying σ ε κ η)
    (conn : DTraceConnection σ) : CallOut (Except ε Unit) σ :=
  let depth := DTraceTransactionManager.depth U conn
  let startProbe := Probe.transaction_start conn.id depth
  let out := U.begin_transaction conn.inner
  ⟨out.1, ⟨out.2, conn.id⟩, [startProbe]⟩

/-- `TransactionManager::rollback_transaction` for the shim: delegate to
`AnsiTransactionManager::rollback_transaction` first, then compute the depth
of the post-rollback state and fire `transaction__done` with
`committed = 0`, then return the delegated result. -/
def DTraceTransactionManager.rollback_transaction (U : Underlying σ ε κ η)
    (conn : DTraceConnection σ) : CallOut (Except ε Unit) σ :=
  let out := U.rollback_transaction conn.inner
  let conn2 : DTraceConnection σ := ⟨out.2, conn.id⟩
  let depth := DTraceTransactionManager.depth U conn2
  ⟨out.1, conn2, [Probe.transaction_done conn.id depth 0]⟩

/-- `TransactionManager::commit_transaction` for the shim: delegate to
`AnsiTransactionManager::commit_transaction` first, then compute the depth
of the post-commit state and fire `transaction__done` with `committed = 1`,
then return the delegated result. -/
def DTraceTransactionManager.commit_transaction (U : Underlying σ ε κ η)
    (conn : DTraceConnection σ) : CallOut (Except ε Unit) σ :=
  let out := U.commit_transaction conn.inner
  let conn2 : DTraceConnection σ := ⟨out.2, conn.id⟩
  let depth := DTraceTransactionManager.depth U conn2
  ⟨out.1, conn2, [Probe.transaction_done conn.id depth 1]⟩

/-- One operation a caller can invoke on an established connection.  Queries
are carried by their rendered text. -/
inductive Op
  | batch_execute (query : String)
  | load (source : String)
  | execute_returning_count (source : String)
  | begin_transaction
  | commit_transaction
  | rollback_transaction
  | ping
  deriving DecidableEq

/-- The result one operation returns to the caller, tagged by its shape. -/
inductive OpResult (ε κ : Type)
  | unitResult (r : Except ε Unit)
  | cursorResult (r : Except ε κ)
  | countResult (r : Except ε Nat)
  deriving DecidableEq

/-- Outcome of one step of the wrapped connection: the caller-visible result,
the connection afterwards, the probes fired, and the next fresh correlation
id of the supply. -/
structure StepOut (σ ε κ : Type) where
  result : OpResult ε κ
  conn : DTraceConnection σ
  probes : List Probe
  next_uid : UniqueId

/-- Outcome of a sequence of operations on the wrapped connection. -/
structure RunOut (σ ε κ : Type) where
  results : List (OpResult ε κ)
  conn : DTraceConnection σ
  probes : List Probe
  next_uid : UniqueId

/-- Dispatch one operation on the wrapped connection.  The operations that
generate a correlation id (`UniqueId::new()`) consume the current fresh id
`uid` and advance the supply; transaction operations and `ping` generate
none. -/
def applyOp (U : Underlying σ ε κ η) (uid : UniqueId)
    (conn : DTraceConnection σ) : Op → StepOut σ ε κ
  | .batch_execute q =>
      let out := DTraceConnection.batch_execute U uid conn q
      ⟨.unitResult out.result, out.conn, out.probes, uid + 1⟩
  | .load q =>
      let out := DTraceConnection.load U uid conn q
      ⟨.cursorResult out.result, out.conn, out.probes, uid + 1⟩
  | .execute_returning_count q =>
      let out := DTraceConnection.execute_returning_count U uid conn q
      ⟨.countResult out.result, out.conn, out.probes, uid + 1⟩
  | .begin_transaction =>
      let out := DTraceTransactionManager.begin_transaction U conn
      ⟨.unitResult out.result, out.conn, out.probes, uid⟩
  | .commit_transaction =>
      let out := DTraceTransactionManager.commit_transaction U conn
      ⟨.unitResult out.result, out.conn, out.probes, uid⟩
  | .rollback_transaction =>
      let out := DTraceTransactionManager.rollback_transaction U conn
      ⟨.unitResult out.result, out.conn, out.probes, uid⟩
  | .ping =>
      let out := DTraceConnection.ping U conn
      ⟨.unitResult out.result, out.conn, out.probes, uid⟩

/-- Run a sequence of operations on the wrapped connection, collecting the
results in order and the probes in firing order. -/
def run (U : Underlying σ ε κ η) (uid : UniqueId) (conn : DTraceConnection σ) :
    List Op → RunOut σ ε κ
  | [] => ⟨[], conn, [], uid⟩
  | op :: ops =>
      let s := applyOp U uid conn op
      let out := run U s.next_uid s.conn ops
      ⟨s.result :: out.results, out.conn, s.probes ++ out.probes, out.next_uid⟩

/-- Dispatch one operation directly on the underlying connection, with no
wrapper: the reference behaviour the wrapper is compared against. -/
def applyOpRaw (U : Underlying σ ε κ η) (s : σ) : Op → OpResult ε κ × σ
  | .batch_execute q =>
      let out := U.batch_execute s q
      (.unitResult out.1, out.2)
  | .load q =>
      let out := U.load s q
      (.cursorResult out.1, out.2)
  | .execute_returning_count q =>
      let out := U.execute_returning_count s q
      (.countResult out.1, out.2)
  | .begin_transaction =>
      let out := U.begin_transaction s
      (.unitResult out.1, out.2)
  | .commit_transaction =>
      let out := U.commit_transaction s
      (.unitResult out.1, out.2)
  | .rollback_transaction =>
      let out := U.rollback_transaction s
      (.unitResult out.1, out.2)
  | .ping =>
      let out := U.ping s
      (.unitResult out.1, out.2)

/-- Run a sequence of operations directly on the underlying connection. -/
def runRaw (U : Underlying σ ε κ η) (s : σ) :
    List Op → List (OpResult ε κ) × σ
  | [] => ([], s)
  | op :: ops =>
      let step := applyOpRaw U s op
      let out := runRaw U step.2 ops
      (step.1 :: out.1, out.2)

/-- The valid status holding exactly `n` open nested transactions:
`transaction_depth = None` for `0`, `Some(n)` otherwise. -/
def statusAt : Nat → TransactionManagerStatus
  | 0 => .valid ⟨none⟩
  | n + 1 => .valid ⟨some ⟨n + 1, Nat.succ_pos n⟩⟩

/-- Modelled behaviour of `AnsiTransactionManager::begin_transaction` on its
status (diesel, external dependency), per its documented semantics: opening a
transaction or savepoint pushes one nesting level on success; on the
poisoned status it fails. -/
def ansiBegin : TransactionManagerStatus →
    Except Unit Unit × TransactionManagerStatus
  | .valid ⟨none⟩ => (.ok (), .valid ⟨some ⟨1, Nat.one_pos⟩⟩)
  | .valid ⟨some d⟩ =>
      (.ok (), .valid ⟨some ⟨d.val + 1, Nat.succ_pos d.val⟩⟩)
  | .inError => (.error (), .inError)

/-- Modelled behaviour of `AnsiTransactionManager::commit_transaction` on its
status (diesel, external dependency): committing pops one nesting level on
success; with no open transaction, or on the poisoned status, it fails. -/
def ansiCommit : TransactionManagerStatus →
    Except Unit Unit × TransactionManagerStatus
  | .valid ⟨none⟩ => (.error (), .valid ⟨none⟩)
  | .valid ⟨some d⟩ =>
      if h : d.val = 1 then (.ok (), .valid ⟨none⟩)
      else
        (.ok (), .valid ⟨some ⟨d.val - 1, by
          have hd := d.property
          omega⟩⟩)
  | .inError => (.error (), .inError)

/-- Modelled behaviour of `AnsiTransactionManager::rollback_transaction` on
its status (diesel, external dependency): rolling back pops one nesting
level on success; with no open transaction, or on the poisoned status, it
fails. -/
def ansiRollback : TransactionManagerStatus →
    Except Unit Unit × TransactionManagerStatus
  | .valid ⟨none⟩ => (.error (), .valid ⟨none⟩)
  | .valid ⟨some d⟩ =>
      if h : d.val = 1 then (.ok (), .valid ⟨none⟩)
      else
        (.ok (), .valid ⟨some ⟨d.val - 1, by
          have hd := d.property
          omega⟩⟩)
  | .inError => (.error (), .inError)

/-- A concrete underlying connection whose state is exactly its
`AnsiTransactionManager` status: queries succeed and leave the status
unchanged, transaction operations follow the modelled
`AnsiTransactionManager` semantics.  Used to exercise the wrapper on the
nominal nested-transaction scenarios. -/
def ansi : Underlying TransactionManagerStatus Unit Unit Unit where
  batch_execute := fun s _ => (.ok (), s)
  load := fun s _ => (.ok (), s)
  execute_returning_count := fun s _ => (.ok 0, s)
  ping := fun s => (.ok (), s)
  begin_transaction := ansiBegin
  commit_transaction := ansiCommit
  rollback_transaction := ansiRollback
  transaction_manager_status := fun s => s
  establish := fun _ => .ok (.valid ⟨none⟩)

/-- The depths carried by the `transaction__start` probes of a trace, in
emission order. -/
def startDepths : List Probe → List Int
  | [] => []
  | .transaction_start _ d :: ps => d :: startDepths ps
  | _ :: ps => startDepths ps

/-- The depths carried by the `transaction__done` probes of a trace, in
emission order. -/
def doneDepths : List Probe → List Int
  | [] => []
  | .transaction_done _ d _ :: ps => d :: doneDepths ps
  | _ :: ps => doneDepths ps

/-- The committed flags carried by the `transaction__done` probes of a trace,
in emission order. -/
def doneFlags : List Probe → List Nat
  | [] => []
  | .transaction_done _ _ c :: ps => c :: doneFlags ps
  | _ :: ps => doneFlags ps

/-! Helper lemmas shared by the claim theorems. -/

theorem applyOp_result_eq_raw (U : Underlying σ ε κ η) (uid : UniqueId)
    (conn : DTraceConnection σ) (op : Op) :
    (applyOp U uid conn op).result = (applyOpRaw U conn.inner op).1 := by
  cases op <;>
    rfl

theorem applyOp_inner_eq_raw (U : Underlying σ ε κ η) (uid : UniqueId)
    (conn : DTraceConnection σ) (op : Op) :
    (applyOp U uid conn op).conn.inner = (applyOpRaw U conn.inner op).2 := by
  cases op <;>
    rfl

theorem applyOp_conn_id (U : Underlying σ ε κ η) (uid : UniqueId)
    (conn : DTraceConnection σ) (op : Op) :
    (applyOp U uid conn op).conn.id = conn.id := by
  cases op <;>
    rfl

theorem applyOp_probes_conn_id (U : Underlying σ ε κ η) (uid : UniqueId)
    (conn : DTraceConnection σ) (op : Op) :
    ∀ p ∈ (applyOp U uid conn op).probes, p.conn_id = conn.id := by
  cases op <;>
    simp [applyOp, DTraceConnection.batch_execute, DTraceConnection.load,
      DTraceConnection.execute_returning_count, DTraceConnection.ping,
      DTraceTransactionManager.begin_transaction,
      DTraceTransactionManager.commit_transaction,
      DTraceTransactionManager.rollback_transaction, Probe.conn_id]

theorem run_results_eq_raw (U : Underlying σ ε κ η) (ops : List Op) :
    ∀ (uid : UniqueId) (conn : DTraceConnection σ),
      (run U uid conn ops).results = (runRaw U conn.inner ops).1 := by
  induction ops with
  | nil => intro uid conn; rfl
  | cons op ops ih =>
      intro uid conn
      simp only [run, runRaw, ih, applyOp_result_eq_raw, applyOp_inner_eq_raw]

theorem run_inner_eq_raw (U : Underlying σ ε κ η) (ops : List Op) :
    ∀ (uid : UniqueId) (conn : DTraceConnection σ),
      (run U uid conn ops).conn.inner = (runRaw U conn.inner ops).2 := by
  induction ops with
  | nil => intro uid conn; rfl
  | cons op ops ih =>
      intro uid conn
      simp only [run, runRaw, ih, applyOp_inner_eq_raw]

theorem run_conn_id (U : Underlying σ ε κ η) (ops : List Op) :
    ∀ (uid : UniqueId) (conn : DTraceConnection σ),
      (run U uid conn ops).conn.id = conn.id := by
  induction ops with
  | nil => intro uid conn; rfl
  | cons op ops ih =>
      intro uid conn
      simp only [run, ih, applyOp_conn_id]

theorem run_probes_conn_id (U : Underlying σ ε κ η) (ops : List Op) :
    ∀ (uid : UniqueId) (conn : DTraceConnection σ),
      ∀ p ∈ (run U uid conn ops).probes, p.conn_id = conn.id := by
  induction ops with
  | nil => intro uid conn p hp; simp [run] at hp
  | cons op ops ih =>
      intro uid conn p hp
      simp only [run, List.mem_append] at hp
      rcases hp with hp | hp
      · exact applyOp_probes_conn_id U uid conn op p hp
      · have h := ih (applyOp U uid conn op).next_uid (applyOp U uid conn op).conn p hp
        rw [h, applyOp_conn_id]

theorem run_append (U : Underlying σ ε κ η) (l1 l2 : List Op) :
    ∀ (uid : UniqueId) (conn : DTraceConnection σ),
      run U uid conn (l1 ++ l2) =
        ⟨(run U uid conn l1).results ++
           (run U (run U uid conn l1).next_uid (run U uid conn l1).conn l2).results,
         (run U (run U uid conn l1).next_uid (run U uid conn l1).conn l2).conn,
         (run U uid conn l1).probes ++
           (run U (run U uid conn l1).next_uid (run U uid conn l1).conn l2).probes,
         (run U (run U uid conn l1).next_uid (run U uid conn l1).conn l2).next_uid⟩ := by
  induction l1 with
  | nil => intro uid conn; simp [run]
  | cons op ops ih =>
      intro uid conn
      simp only [List.cons_append, run, List.append_eq, ih, List.append_assoc]

theorem depthOfStatus_statusAt (n : Nat) :
    depthOfStatus (statusAt n) = Int.ofNat n := by
  cases n <;> rfl

theorem ansiBegin_statusAt (n : Nat) :
    ansiBegin (statusAt n) = (.ok (), statusAt (n + 1)) := by
  cases n <;> rfl

theorem ansiCommit_statusAt (n : Nat) :
    ansiCommit (statusAt (n + 1)) = (.ok (), statusAt n) := by
  cases n with
  | zero => rfl
  | succ m => rfl

theorem applyOp_begin_statusAt (uid : UniqueId) (cid : Uuid) (n : Nat) :
    applyOp ansi uid ⟨statusAt n, cid⟩ Op.begin_transaction =
      ⟨.unitResult (.ok ()), ⟨statusAt (n + 1), cid⟩,
       [Probe.transaction_start cid (Int.ofNat n)], uid⟩ := by
  simp [applyOp, DTraceTransactionManager.begin_transaction,
    DTraceTransactionManager.depth, ansi, ansiBegin_statusAt,
    depthOfStatus_statusAt]

theorem applyOp_commit_statusAt (uid : UniqueId) (cid : Uuid) (n : Nat) :
    applyOp ansi uid ⟨statusAt (n + 1), cid⟩ Op.commit_transaction =
      ⟨.unitResult (.ok ()), ⟨statusAt n, cid⟩,
       [Probe.transaction_done cid (Int.ofNat n) 1], uid⟩ := by
  simp [applyOp, DTraceTransactionManager.commit_transaction,
    DTraceTransactionManager.depth, ansi, ansiCommit_statusAt,
    depthOfStatus_statusAt]

theorem run_begins (k : Nat) :
    ∀ (n : Nat) (uid : UniqueId) (cid : Uuid),
      run ansi uid ⟨statusAt n, cid⟩ (List.replicate k Op.begin_transaction) =
        ⟨List.replicate k (OpResult.unitResult (Except.ok ())),
         ⟨statusAt (n + k), cid⟩,
         (List.range k).map (fun i => Probe.transaction_start cid (Int.ofNat (n + i))),
         uid⟩ := by
  induction k with
  | zero => intro n uid cid; simp [run]
  | succ k ih =>
      intro n uid cid
      rw [List.replicate_succ]
      simp only [run, applyOp_begin_statusAt, ih (n + 1)]
      have hrange : (List.range (k + 1)).map
            (fun i => Probe.transaction_start cid (Int.ofNat (n + i))) =
          Probe.transaction_start cid (Int.ofNat n) ::
            (List.range k).map
              (fun i => Probe.transaction_start cid (Int.ofNat (n + 1 + i))) := by
        rw [List.range_succ_eq_map, List.map_cons, List.map_map]
        refine congrArg₂ _ (by simp) ?_
        refine List.map_congr_left ?_
        intro i hi
        simp only [Function.comp_apply, Int.ofNat_eq_coe]
        congr 1
        omega
      rw [RunOut.mk.injEq]
      refine ⟨by simp [List.replicate_succ], ?_, ?_, rfl⟩
      · have h2 : n + 1 + k = n + (k + 1) := by omega
        rw [h2]
      · rw [hrange, List.singleton_append]

theorem run_commits (k : Nat) :
    ∀ (m : Nat), k ≤ m → ∀ (uid : UniqueId) (cid : Uuid),
      run ansi uid ⟨statusAt m, cid⟩ (List.replicate k Op.commit_transaction) =
        ⟨List.replicate k (OpResult.unitResult (Except.ok ())),
         ⟨statusAt (m - k), cid⟩,
         (List.range k).map
           (fun i => Probe.transaction_done cid (Int.ofNat (m - 1 - i)) 1),
         uid⟩ := by
  induction k with
  | zero => intro m hm uid cid; simp [run]
  | succ k ih =>
      intro m hm uid cid
      cases m with
      | zero => exact absurd hm (by omega)
      | succ m =>
          rw [List.replicate_succ]
          have hk : k ≤ m := by omega
          simp only [run, applyOp_commit_statusAt, ih m hk]
          have hrange : (List.range (k + 1)).map
                (fun i => Probe.transaction_done cid (Int.ofNat (m + 1 - 1 - i)) 1) =
              Probe.transaction_done cid (Int.ofNat m) 1 ::
                (List.range k).map
                  (fun i => Probe.transaction_done cid (Int.ofNat (m - 1 - i)) 1) := by
            rw [List.range_succ_eq_map, List.map_cons, List.map_map]
            refine congrArg₂ _ (by simp) ?_
            refine List.map_congr_left ?_
            intro i hi
            simp only [Function.comp_apply, Int.ofNat_eq_coe]
            congr 1
            omega
          rw [RunOut.mk.injEq]
          refine ⟨by simp [List.replicate_succ], ?_, ?_, rfl⟩
          · have h2 : m - k = m + 1 - (k + 1) := by omega
            rw [h2]
          · rw [hrange, List.singleton_append]

theorem startDepths_append (xs ys : List Probe) :
    startDepths (xs ++ ys) = startDepths xs ++ startDepths ys := by
  induction xs with
  | nil => rfl
  | cons p ps ih => cases p <;> simp [startDepths, ih]

theorem doneDepths_append (xs ys : List Probe) :
    doneDepths (xs ++ ys) = doneDepths xs ++ doneDepths ys := by
  induction xs with
  | nil => rfl
  | cons p ps ih => cases p <;> simp [doneDepths, ih]

theorem startDepths_map_start (cid : Uuid) (f : Nat → Int) (l : List Nat) :
    startDepths (l.map fun i => Probe.transaction_start cid (f i)) = l.map f := by
  induction l with
  | nil => rfl
  | cons i l ih => simp [startDepths, ih]

theorem startDepths_map_done (cid : Uuid) (f : Nat → Int) (c : Nat)
    (l : List Nat) :
    startDepths (l.map fun i => Probe.transaction_done cid (f i) c) = [] := by
  induction l with
  | nil => rfl
  | cons i l ih => simp [startDepths, ih]

theorem doneDepths_map_start (cid : Uuid) (f : Nat → Int) (l : List Nat) :
    doneDepths (l.map fun i => Probe.transaction_start cid (f i)) = [] := by
  induction l with
  | nil => rfl
  | cons i l ih => simp [doneDepths, ih]

theorem doneDepths_map_done (cid : Uuid) (f : Nat → Int) (c : Nat)
    (l : List Nat) :
    doneDepths (l.map fun i => Probe.transaction_done cid (f i) c) = l.map f := by
  induction l with
  | nil => rfl
  | cons i l ih => simp [doneDepths, ih]

theorem reverse_range (N : Nat) :
    (List.range N).reverse = (List.range N).map (fun i => N - 1 - i) := by
  conv_lhs => rw [List.range_eq_range', List.reverse_range']
  refine List.map_congr_left ?_
  intro i hi
  show 0 + N - 1 - i = N - 1 - i
  omega

/-! The claim theorems. -/

/-- Claim C2: for every sequence of operations (batch-execute, load,
execute-returning-count, begin/commit/rollback, ping), the results returned
by the instrumented connection are exactly the results the underlying
connection returns for the same inputs, and the underlying state evolves
identically; the wrapper never alters, replaces, or swallows a delegated
result.  Probe emission is pure observation in this model, so the results
are independent of whether probes are active. -/
theorem C2_result_transparency (U : Underlying σ ε κ η) (uid : UniqueId)
    (conn : DTraceConnection σ) (ops : List Op) :
    (run U uid conn ops).results = (runRaw U conn.inner ops).1 ∧
    (run U uid conn ops).conn.inner = (runRaw U conn.inner ops).2 :=
  ⟨run_results_eq_raw U ops uid conn, run_inner_eq_raw U ops uid conn⟩

/-- Witness for claim C2 at a concrete operation sequence on the `ansi`
underlying connection. -/
theorem C2_result_transparency_witness :
    (run ansi 0 ⟨statusAt 0, 3⟩
        [Op.batch_execute "CREATE TABLE t (x INT)", Op.begin_transaction,
         Op.load "SELECT x FROM t", Op.commit_transaction, Op.ping]).results =
      (runRaw ansi (statusAt 0)
        [Op.batch_execute "CREATE TABLE t (x INT)", Op.begin_transaction,
         Op.load "SELECT x FROM t", Op.commit_transaction, Op.ping]).1 ∧
    (run ansi 0 ⟨statusAt 0, 3⟩
        [Op.batch_execute "CREATE TABLE t (x INT)", Op.begin_transaction,
         Op.load "SELECT x FROM t", Op.commit_transaction, Op.ping]).conn.inner =
      (runRaw ansi (statusAt 0)
        [Op.batch_execute "CREATE TABLE t (x INT)", Op.begin_transaction,
         Op.load "SELECT x FROM t", Op.commit_transaction, Op.ping]).2 :=
  C2_result_transparency ansi 0 ⟨statusAt 0, 3⟩
    [Op.batch_execute "CREATE TABLE t (x INT)", Op.begin_transaction,
     Op.load "SELECT x FROM t", Op.commit_transaction, Op.ping]

/-- Claim C3: every invocation of batch-execute, load,
execute-returning-count, and establish fires exactly one start probe and
exactly one done probe, both carrying the same freshly generated correlation
id; the start probe precedes the delegated call and the done probe follows
it, before the operation returns the delegated result; the supply of
correlation ids advances after each such operation. -/
theorem C3_probe_pairing (U : Underlying σ ε κ η) (uid : UniqueId) (cid : Uuid)
    (conn : DTraceConnection σ) (query url : String) :
    (DTraceConnection.batch_execute U uid conn query).probes =
      [Probe.query_start uid conn.id query, Probe.query_done uid conn.id] ∧
    (DTraceConnection.batch_execute U uid conn query).result =
      (U.batch_execute conn.inner query).1 ∧
    (DTraceConnection.load U uid conn query).probes =
      [Probe.query_start uid conn.id query, Probe.query_done uid conn.id] ∧
    (DTraceConnection.load U uid conn query).result =
      (U.load conn.inner query).1 ∧
    (DTraceConnection.execute_returning_count U uid conn query).probes =
      [Probe.query_start uid conn.id query, Probe.query_done uid conn.id] ∧
    (DTraceConnection.execute_returning_count U uid conn query).result =
      (U.execute_returning_count conn.inner query).1 ∧
    (DTraceConnection.establish U uid cid url).probes =
      [Probe.connection_establish_start uid cid url,
       Probe.connection_establish_done uid cid (successFlag (U.establish url))] ∧
    (applyOp U uid conn (Op.batch_execute query)).next_uid = uid + 1 ∧
    (applyOp U uid conn (Op.load query)).next_uid = uid + 1 ∧
    (applyOp U uid conn (Op.execute_returning_count query)).next_uid = uid + 1 := by
  refine ⟨rfl, rfl, rfl, rfl, rfl, rfl, ?_, rfl, rfl, rfl⟩
  cases h : U.establish url <;>
    simp [DTraceConnection.establish, h, successFlag]

/-- Witness for claim C3 on the `ansi` underlying connection. -/
theorem C3_probe_pairing_witness :
    (DTraceConnection.batch_execute ansi 11 ⟨statusAt 0, 4⟩ "Q1").probes =
      [Probe.query_start 11 4 "Q1", Probe.query_done 11 4] ∧
    (DTraceConnection.batch_execute ansi 11 ⟨statusAt 0, 4⟩ "Q1").result =
      (ansi.batch_execute (statusAt 0) "Q1").1 ∧
    (DTraceConnection.load ansi 11 ⟨statusAt 0, 4⟩ "Q1").probes =
      [Probe.query_start 11 4 "Q1", Probe.query_done 11 4] ∧
    (DTraceConnection.load ansi 11 ⟨statusAt 0, 4⟩ "Q1").result =
      (ansi.load (statusAt 0) "Q1").1 ∧
    (DTraceConnection.execute_returning_count ansi 11 ⟨statusAt 0, 4⟩ "Q1").probes =
      [Probe.query_start 11 4 "Q1", Probe.query_done 11 4] ∧
    (DTraceConnection.execute_returning_count ansi 11 ⟨statusAt 0, 4⟩ "Q1").result =
      (ansi.execute_returning_count (statusAt 0) "Q1").1 ∧
    (DTraceConnection.establish ansi 11 9 "db-url").probes =
      [Probe.connection_establish_start 11 9 "db-url",
       Probe.connection_establish_done 11 9 (successFlag (ansi.establish "db-url"))] ∧
    (applyOp ansi 11 ⟨statusAt 0, 4⟩ (Op.batch_execute "Q1")).next_uid = 12 ∧
    (applyOp ansi 11 ⟨statusAt 0, 4⟩ (Op.load "Q1")).next_uid = 12 ∧
    (applyOp ansi 11 ⟨statusAt 0, 4⟩ (Op.execute_returning_count "Q1")).next_uid = 12 :=
  C3_probe_pairing ansi 11 9 ⟨statusAt 0, 4⟩ "Q1" "db-url"

/-- Claim C4: the transaction-depth observer returns 0 when the underlying
status reports no open transaction, the positive count when nested
transactions are open, and -1 on the poisoned status; it is a total function
(it never returns an error itself), and the result of the enclosing begin,
commit, or rollback operation is exactly the underlying result, whatever the
status holds. -/
theorem C4_depth_observer (U : Underlying σ ε κ η) (conn : DTraceConnection σ)
    (n : Nat) (hn : 0 < n) :
    depthOfStatus (.valid ⟨none⟩) = 0 ∧
    depthOfStatus (.valid ⟨some ⟨n, hn⟩⟩) = Int.ofNat n ∧
    0 < depthOfStatus (.valid ⟨some ⟨n, hn⟩⟩) ∧
    depthOfStatus .inError = -1 ∧
    (DTraceTransactionManager.begin_transaction U conn).result =
      (U.begin_transaction conn.inner).1 ∧
    (DTraceTransactionManager.commit_transaction U conn).result =
      (U.commit_transaction conn.inner).1 ∧
    (DTraceTransactionManager.rollback_transaction U conn).result =
      (U.rollback_transaction conn.inner).1 := by
  refine ⟨rfl, rfl, ?_, rfl, rfl, rfl, rfl⟩
  show (0 : Int) < Int.ofNat n
  exact Int.ofNat_pos.mpr hn

/-- Witness for claim C4: depth 2 on a valid status, and the enclosing
operations on the poisoned `ansi` state. -/
theorem C4_depth_observer_witness :
    depthOfStatus (.valid ⟨none⟩) = 0 ∧
    depthOfStatus (.valid ⟨some ⟨2, Nat.succ_pos 1⟩⟩) = Int.ofNat 2 ∧
    0 < depthOfStatus (.valid ⟨some ⟨2, Nat.succ_pos 1⟩⟩) ∧
    depthOfStatus .inError = -1 ∧
    (DTraceTransactionManager.begin_transaction ansi ⟨.inError, 6⟩).result =
      (ansi.begin_transaction .inError).1 ∧
    (DTraceTransactionManager.commit_transaction ansi ⟨.inError, 6⟩).result =
      (ansi.commit_transaction .inError).1 ∧
    (DTraceTransactionManager.rollback_transaction ansi ⟨.inError, 6⟩).result =
      (ansi.rollback_transaction .inError).1 :=
  C4_depth_observer ansi ⟨.inError, 6⟩ 2 (Nat.succ_pos 1)

/-- Claim C8: ping delegates directly to the underlying ping, fires no probe
of any kind, and returns the underlying result unchanged. -/
theorem C8_ping_no_probes (U : Underlying σ ε κ η)
    (conn : DTraceConnection σ) :
    (DTraceConnection.ping U conn).result = (U.ping conn.inner).1 ∧
    (DTraceConnection.ping U conn).probes = [] ∧
    (DTraceConnection.ping U conn).conn = ⟨(U.ping conn.inner).2, conn.id⟩ :=
  ⟨rfl, rfl, rfl⟩

/-- Witness for claim C8 on the `ansi` underlying connection. -/
theorem C8_ping_no_probes_witness :
    (DTraceConnection.ping ansi ⟨statusAt 0, 8⟩).result =
      (ansi.ping (statusAt 0)).1 ∧
    (DTraceConnection.ping ansi ⟨statusAt 0, 8⟩).probes = [] ∧
    (DTraceConnection.ping ansi ⟨statusAt 0, 8⟩).conn =
      ⟨(ansi.ping (statusAt 0)).2, 8⟩ :=
  C8_ping_no_probes ansi ⟨statusAt 0, 8⟩

/-- Claim C9: commit and rollback fire the transaction-done probe (committed
= 1 for commit, 0 for rollback, with the post-operation depth) even when the
underlying operation returns an error, and the underlying error is returned
unchanged. -/
theorem C9_done_probe_on_error (U : Underlying σ ε κ η)
    (conn : DTraceConnection σ) (ec er : ε)
    (hc : (U.commit_transaction conn.inner).1 = .error ec)
    (hr : (U.rollback_transaction conn.inner).1 = .error er) :
    (DTraceTransactionManager.commit_transaction U conn).result = .error ec ∧
    (DTraceTransactionManager.commit_transaction U conn).probes =
      [Probe.transaction_done conn.id
        (depthOfStatus (U.transaction_manager_status
          (U.commit_transaction conn.inner).2)) 1] ∧
    (DTraceTransactionManager.rollback_transaction U conn).result = .error er ∧
    (DTraceTransactionManager.rollback_transaction U conn).probes =
      [Probe.transaction_done conn.id
        (depthOfStatus (U.transaction_manager_status
          (U.rollback_transaction conn.inner).2)) 0] :=
  ⟨hc, rfl, hr, rfl⟩

/-- Witness for claim C9: on the `ansi` model, committing or rolling back
with no open transaction fails, yet the transaction-done probe fires and the
error is returned. -/
theorem C9_done_probe_on_error_witness :
    (DTraceTransactionManager.commit_transaction ansi ⟨statusAt 0, 4⟩).result =
      .error () ∧
    (DTraceTransactionManager.commit_transaction ansi ⟨statusAt 0, 4⟩).probes =
      [Probe.transaction_done 4 0 1] ∧
    (DTraceTransactionManager.rollback_transaction ansi ⟨statusAt 0, 4⟩).result =
      .error () ∧
    (DTraceTransactionManager.rollback_transaction ansi ⟨statusAt 0, 4⟩).probes =
      [Probe.transaction_done 4 0 0] :=
  C9_done_probe_on_error ansi ⟨statusAt 0, 4⟩ () () rfl rfl

/-- Claim C10: dereferencing (immutably or mutably) returns the wrapped
underlying connection itself and fires no probe, so operations invoked
through the dereferenced reference run on the underlying connection with no
tracing. -/
theorem C10_deref_passthrough (U : Underlying σ ε κ η)
    (conn : DTraceConnection σ) (ops : List Op) :
    (DTraceConnection.deref conn).1 = conn.inner ∧
    (DTraceConnection.deref conn).2 = [] ∧
    (DTraceConnection.deref_mut conn).1 = conn.inner ∧
    (DTraceConnection.deref_mut conn).2 = [] ∧
    runRaw U (DTraceConnection.deref_mut conn).1 ops =
      runRaw U conn.inner ops :=
  ⟨rfl, rfl, rfl, rfl, rfl⟩

/-- Witness for claim C10 on the `ansi` underlying connection. -/
theorem C10_deref_passthrough_witness :
    (DTraceConnection.deref ⟨statusAt 0, 2⟩).1 = statusAt 0 ∧
    (DTraceConnection.deref (σ := TransactionManagerStatus) ⟨statusAt 0, 2⟩).2 = [] ∧
    (DTraceConnection.deref_mut ⟨statusAt 0, 2⟩).1 = statusAt 0 ∧
    (DTraceConnection.deref_mut (σ := TransactionManagerStatus) ⟨statusAt 0, 2⟩).2 = [] ∧
    runRaw ansi (DTraceConnection.deref_mut ⟨statusAt 0, 2⟩).1
        [Op.begin_transaction, Op.commit_transaction] =
      runRaw ansi (statusAt 0) [Op.begin_transaction, Op.commit_transaction] :=
  C10_deref_passthrough ansi ⟨statusAt 0, 2⟩
    [Op.begin_transaction, Op.commit_transaction]

/-- Claim C5: commit and rollback delegate first and compute the depth for
the transaction-done probe from the post-operation state; on a fresh
connection, begin, nested begin, commit, commit yields done-probe depths 1
then 0 (start-probe depths 0 then 1), all four operations succeeding; commit
fires transaction-done with committed = 1 and rollback with committed = 0. -/
theorem C5_done_probes_post_state (U : Underlying σ ε κ η)
    (conn : DTraceConnection σ) (uid : UniqueId) (cid : Uuid) :
    (DTraceTransactionManager.commit_transaction U conn).probes =
      [Probe.transaction_done conn.id
        (depthOfStatus (U.transaction_manager_status
          (U.commit_transaction conn.inner).2)) 1] ∧
    (DTraceTransactionManager.rollback_transaction U conn).probes =
      [Probe.transaction_done conn.id
        (depthOfStatus (U.transaction_manager_status
          (U.rollback_transaction conn.inner).2)) 0] ∧
    doneDepths (run ansi uid ⟨statusAt 0, cid⟩
      [Op.begin_transaction, Op.begin_transaction, Op.commit_transaction,
       Op.commit_transaction]).probes = [1, 0] ∧
    doneFlags (run ansi uid ⟨statusAt 0, cid⟩
      [Op.begin_transaction, Op.begin_transaction, Op.commit_transaction,
       Op.commit_transaction]).probes = [1, 1] ∧
    startDepths (run ansi uid ⟨statusAt 0, cid⟩
      [Op.begin_transaction, Op.begin_transaction, Op.commit_transaction,
       Op.commit_transaction]).probes = [0, 1] ∧
    (run ansi uid ⟨statusAt 0, cid⟩
      [Op.begin_transaction, Op.begin_transaction, Op.commit_transaction,
       Op.commit_transaction]).results =
      List.replicate 4 (OpResult.unitResult (Except.ok ())) ∧
    doneFlags (DTraceTransactionManager.rollback_transaction U conn).probes =
      [0] :=
  ⟨rfl, rfl, rfl, rfl, rfl, rfl, rfl⟩

/-- Witness for claim C5 at concrete identifiers. -/
theorem C5_done_probes_post_state_witness :
    (DTraceTransactionManager.commit_transaction ansi ⟨statusAt 2, 9⟩).probes =
      [Probe.transaction_done 9 1 1] ∧
    (DTraceTransactionManager.rollback_transaction ansi ⟨statusAt 2, 9⟩).probes =
      [Probe.transaction_done 9 1 0] ∧
    doneDepths (run ansi 0 ⟨statusAt 0, 9⟩
      [Op.begin_transaction, Op.begin_transaction, Op.commit_transaction,
       Op.commit_transaction]).probes = [1, 0] ∧
    doneFlags (run ansi 0 ⟨statusAt 0, 9⟩
      [Op.begin_transaction, Op.begin_transaction, Op.commit_transaction,
       Op.commit_transaction]).probes = [1, 1] ∧
    startDepths (run ansi 0 ⟨statusAt 0, 9⟩
      [Op.begin_transaction, Op.begin_transaction, Op.commit_transaction,
       Op.commit_transaction]).probes = [0, 1] ∧
    (run ansi 0 ⟨statusAt 0, 9⟩
      [Op.begin_transaction, Op.begin_transaction, Op.commit_transaction,
       Op.commit_transaction]).results =
      List.replicate 4 (OpResult.unitResult (Except.ok ())) ∧
    doneFlags (DTraceTransactionManager.rollback_transaction ansi
      ⟨statusAt 2, 9⟩).probes = [0] :=
  C5_done_probes_post_state ansi ⟨statusAt 2, 9⟩ 0 9

/-- Claim C6: establish generates a fresh correlation id and connection id
before connecting, fires the establish-start probe with (correlation id,
connection id, url), delegates, fires the establish-done probe with success
flag 1 on success and 0 on failure regardless of outcome, and returns the
wrapper tagged with the generated connection id on success or the underlying
error unchanged on failure. -/
theorem C6_establish_contract (U : Underlying σ ε κ η) (uid : UniqueId)
    (cid : Uuid) (url : String) (s : σ) (e : η) :
    (DTraceConnection.establish U uid cid url).result =
      (U.establish url).map (fun inner => ⟨inner, cid⟩) ∧
    (DTraceConnection.establish U uid cid url).probes =
      [Probe.connection_establish_start uid cid url,
       Probe.connection_establish_done uid cid (successFlag (U.establish url))] ∧
    successFlag (Except.ok s : Except η σ) = 1 ∧
    successFlag (Except.error e : Except η σ) = 0 := by
  refine ⟨?_, ?_, rfl, rfl⟩ <;>
    cases h : U.establish url <;>
      simp [DTraceConnection.establish, h, successFlag, Except.map]

/-- Witness for claim C6 on the `ansi` underlying connection (whose
establish succeeds). -/
theorem C6_establish_contract_witness :
    (DTraceConnection.establish ansi 5 7 "db-host").result =
      (ansi.establish "db-host").map (fun inner => ⟨inner, 7⟩) ∧
    (DTraceConnection.establish ansi 5 7 "db-host").probes =
      [Probe.connection_establish_start 5 7 "db-host",
       Probe.connection_establish_done 5 7 (successFlag (ansi.establish "db-host"))] ∧
    successFlag (Except.ok (statusAt 0) : Except Unit TransactionManagerStatus) = 1 ∧
    successFlag (Except.error () : Except Unit TransactionManagerStatus) = 0 :=
  C6_establish_contract ansi 5 7 "db-host" (statusAt 0) ()

/-- Claim C7: the connection-id accessor returns the id generated during
establish, every subsequent operation leaves it unchanged, and every probe
fired for operations on the connection carries it. -/
theorem C7_connection_id_stable (U : Underlying σ ε κ η)
    (uid uid2 : UniqueId) (cid : Uuid) (url : String)
    (conn : DTraceConnection σ)
    (h : (DTraceConnection.establish U uid cid url).result = .ok conn)
    (ops : List Op) :
    conn.id = cid ∧
    (run U uid2 conn ops).conn.id = cid ∧
    ∀ p ∈ (run U uid2 conn ops).probes, p.conn_id = cid := by
  have hid : conn.id = cid := by
    cases he : U.establish url with
    | ok s =>
        simp only [DTraceConnection.establish, he, Except.ok.injEq] at h
        rw [← h]
    | error e =>
        simp only [DTraceConnection.establish, he] at h
        exact absurd h (by simp)
  refine ⟨hid, ?_, ?_⟩
  · rw [run_conn_id]
    exact hid
  · intro p hp
    exact (run_probes_conn_id U ops uid2 conn p hp).trans hid

/-- Witness for claim C7: a connection established through the wrapper on
the `ansi` model, then exercised with a query and a transaction. -/
theorem C7_connection_id_stable_witness :
    (⟨statusAt 0, 7⟩ : DTraceConnection TransactionManagerStatus).id = 7 ∧
    (run ansi 1 ⟨statusAt 0, 7⟩
      [Op.batch_execute "Q2", Op.begin_transaction,
       Op.commit_transaction]).conn.id = 7 ∧
    ∀ p ∈ (run ansi 1 ⟨statusAt 0, 7⟩
      [Op.batch_execute "Q2", Op.begin_transaction,
       Op.commit_transaction]).probes, p.conn_id = 7 :=
  C7_connection_id_stable ansi 0 1 7 "db-host" ⟨statusAt 0, 7⟩ rfl
    [Op.batch_execute "Q2", Op.begin_transaction, Op.commit_transaction]

theorem run_begins_zero (N : Nat) (uid : UniqueId) (cid : Uuid) :
    run ansi uid ⟨statusAt 0, cid⟩ (List.replicate N Op.begin_transaction) =
      ⟨List.replicate N (OpResult.unitResult (Except.ok ())),
       ⟨statusAt N, cid⟩,
       (List.range N).map (fun i => Probe.transaction_start cid (Int.ofNat i)),
       uid⟩ := by
  rw [run_begins N 0 uid cid, RunOut.mk.injEq]
  refine ⟨rfl, by rw [Nat.zero_add], ?_, rfl⟩
  refine List.map_congr_left ?_
  intro i hi
  simp

theorem run_commits_from (N : Nat) (uid : UniqueId) (cid : Uuid) :
    run ansi uid ⟨statusAt N, cid⟩ (List.replicate N Op.commit_transaction) =
      ⟨List.replicate N (OpResult.unitResult (Except.ok ())),
       ⟨statusAt 0, cid⟩,
       (List.range N).map
         (fun i => Probe.transaction_done cid (Int.ofNat (N - 1 - i)) 1),
       uid⟩ := by
  rw [run_commits N N (Nat.le_refl N) uid cid, RunOut.mk.injEq]
  exact ⟨rfl, by rw [Nat.sub_self], rfl, rfl⟩

/-- Counterexample to claim C1 as stated, at the concrete input N = 2 on a
fresh connection: both begins and both commits succeed, yet the
transaction-start probes carry depths 0, 1 (not 1, 2) and the
transaction-done probes carry depths 1, 0 (not 2, 1): the code computes the
start depth before delegating the begin, and the done depth after delegating
the commit. -/
theorem C1_depths_counterexample :
    (run ansi 0 ⟨statusAt 0, 7⟩
        (List.replicate 2 Op.begin_transaction ++
          List.replicate 2 Op.commit_transaction)).results =
      List.replicate 4 (OpResult.unitResult (Except.ok ())) ∧
    startDepths (run ansi 0 ⟨statusAt 0, 7⟩
        (List.replicate 2 Op.begin_transaction ++
          List.replicate 2 Op.commit_transaction)).probes = [0, 1] ∧
    startDepths (run ansi 0 ⟨statusAt 0, 7⟩
        (List.replicate 2 Op.begin_transaction ++
          List.replicate 2 Op.commit_transaction)).probes ≠ [1, 2] ∧
    doneDepths (run ansi 0 ⟨statusAt 0, 7⟩
        (List.replicate 2 Op.begin_transaction ++
          List.replicate 2 Op.commit_transaction)).probes = [1, 0] ∧
    doneDepths (run ansi 0 ⟨statusAt 0, 7⟩
        (List.replicate 2 Op.begin_transaction ++
          List.replicate 2 Op.commit_transaction)).probes ≠ [2, 1] := by
  refine ⟨rfl, rfl, by decide, rfl, by decide⟩

/-- Claim C1 (as amended): for a fresh connection on which N nested begins
succeed followed by N commits that all succeed, the depths carried by the
transaction-start probes are 0, 1, ..., N-1 in emission order, and the
depths carried by the transaction-done probes are N-1, N-2, ..., 0 in
emission order. -/
theorem C1_nested_depth_sequences (N : Nat) (uid : UniqueId) (cid : Uuid) :
    (run ansi uid ⟨statusAt 0, cid⟩
        (List.replicate N Op.begin_transaction ++
          List.replicate N Op.commit_transaction)).results =
      List.replicate (2 * N) (OpResult.unitResult (Except.ok ())) ∧
    startDepths (run ansi uid ⟨statusAt 0, cid⟩
        (List.replicate N Op.begin_transaction ++
          List.replicate N Op.commit_transaction)).probes =
      (List.range N).map Int.ofNat ∧
    doneDepths (run ansi uid ⟨statusAt 0, cid⟩
        (List.replicate N Op.begin_transaction ++
          List.replicate N Op.commit_transaction)).probes =
      ((List.range N).map Int.ofNat).reverse := by
  have hrev : ((List.range N).map Int.ofNat).reverse =
      (List.range N).map (fun i => Int.ofNat (N - 1 - i)) := by
    rw [← List.map_reverse, reverse_range, List.map_map]
    rfl
  simp only [run_append, run_begins_zero, run_commits_from]
  refine ⟨?_, ?_, ?_⟩
  · rw [← List.replicate_add, Nat.two_mul]
  · rw [startDepths_append, startDepths_map_start, startDepths_map_done,
      List.append_nil]
  · rw [doneDepths_append, doneDepths_map_start, doneDepths_map_done,
      List.nil_append, hrev]

/-- Witness for claim C1 (as amended) at N = 3. -/
theorem C1_nested_depth_sequences_witness :
    (run ansi 0 ⟨statusAt 0, 7⟩
        (List.replicate 3 Op.begin_transaction ++
          List.replicate 3 Op.commit_transaction)).results =
      List.replicate 6 (OpResult.unitResult (Except.ok ())) ∧
    startDepths (run ansi 0 ⟨statusAt 0, 7⟩
        (List.replicate 3 Op.begin_transaction ++
          List.replicate 3 Op.commit_transaction)).probes = [0, 1, 2] ∧
    doneDepths (run ansi 0 ⟨statusAt 0, 7⟩
        (List.replicate 3 Op.begin_transaction ++
          List.replicate 3 Op.commit_transaction)).probes = [2, 1, 0] :=
  C1_nested_depth_sequences 3 0 7

end DieselDtrace
